import Mathlib

/-!
Shallow embedding of `src/buffer_overflow.py`: a two-stage filter→validate
pipeline over strings.  Strings are modelled as `List Char` (Python strings
are sequences of Unicode code points, and `len` counts code points).
Python exceptions are modelled with `Except`.
-/

namespace BufferOverflow

/-- `MAX_INPUT_LENGTH = 25` from the configuration section. -/
def MAX_INPUT_LENGTH : Nat := 25

/-- Python whitespace: the set of characters for which `str.isspace()` holds,
which is also exactly the set matched by the regex class `\s` on `str`
patterns in CPython (both go through `Py_UNICODE_ISSPACE`):
ASCII tab, newline, vertical tab, form feed, carriage return, space,
U+001C to U+001F, and the Unicode space characters U+0085, U+00A0, U+1680,
U+2000 to U+200A, U+2028, U+2029, U+202F, U+205F, U+3000. -/
def pyIsSpace (c : Char) : Bool :=
  (0x09 ≤ c.toNat && c.toNat ≤ 0x0D) || c.toNat == 0x20 ||
  (0x1C ≤ c.toNat && c.toNat ≤ 0x1F) || c.toNat == 0x85 || c.toNat == 0xA0 ||
  c.toNat == 0x1680 || (0x2000 ≤ c.toNat && c.toNat ≤ 0x200A) ||
  c.toNat == 0x2028 || c.toNat == 0x2029 || c.toNat == 0x202F ||
  c.toNat == 0x205F || c.toNat == 0x3000

/-- Python `str.strip()`: remove leading and trailing whitespace only. -/
def pyStrip (s : List Char) : List Char :=
  ((s.dropWhile pyIsSpace).reverse.dropWhile pyIsSpace).reverse

/-- Membership in the character class `[A-Za-z0-9\s\-_]` of `VALID_PATTERN`. -/
def validChar (c : Char) : Bool :=
  ('A'.toNat ≤ c.toNat && c.toNat ≤ 'Z'.toNat) ||
  ('a'.toNat ≤ c.toNat && c.toNat ≤ 'z'.toNat) ||
  ('0'.toNat ≤ c.toNat && c.toNat ≤ '9'.toNat) ||
  pyIsSpace c || c == '-' || c == '_'

/-- Semantics of `re.fullmatch(VALID_PATTERN, s)` for
`VALID_PATTERN = r'^[A-Za-z0-9\s\-_]+$'`: `fullmatch` must consume the whole
string, and `[...]+` requires at least one character, so the match succeeds
exactly when `s` is nonempty and every character is in the class. -/
def fullmatchValid (s : List Char) : Bool :=
  !s.isEmpty && s.all validChar

/-- The two `ValueError` kinds raised by the pipeline. -/
inductive PipelineError where
  | lengthExceeded (limit : Nat)
  | invalidCharacters
deriving DecidableEq, Repr

/-- `Filter.filter_input`: raise if `len(data) > MAX_INPUT_LENGTH`,
otherwise return `data.strip()`. -/
def filter_input (data : List Char) : Except PipelineError (List Char) :=
  if data.length > MAX_INPUT_LENGTH then
    .error (.lengthExceeded MAX_INPUT_LENGTH)
  else
    .ok (pyStrip data)

/-- `Validator.validate_input`: raise if `re.fullmatch(VALID_PATTERN, data)`
fails, otherwise return `data` unchanged. -/
def validate_input (data : List Char) : Except PipelineError (List Char) :=
  if !fullmatchValid data then
    .error .invalidCharacters
  else
    .ok data

/-- `process_request` before the `except ValueError` handler: filter, then
validate the filtered data.  `.ok` is the success path (both log lines hit),
`.error` is the path on which a `ValueError` propagates to the handler. -/
def process_requestE (user_input : List Char) : Except PipelineError (List Char) := do
  let filtered_data ← filter_input user_input
  let validated_data ← validate_input filtered_data
  return validated_data

/-- `process_request`: the success value, or `""` when a `ValueError`
was raised by either stage. -/
def process_request (user_input : List Char) : List Char :=
  match process_requestE user_input with
  | .ok validated_data => validated_data
  | .error _ => []

/-! ### Helper lemmas about `dropWhile` and `pyStrip` -/

theorem length_dropWhile_le (p : Char → Bool) (l : List Char) :
    (l.dropWhile p).length ≤ l.length := by
  induction l with
  | nil => simp
  | cons a l ih =>
    by_cases h : p a = true <;> simp [List.dropWhile_cons, h]
    exact Nat.le_succ_of_le ih

theorem head_dropWhile_false (p : Char → Bool) (l : List Char) :
    ∀ c ∈ (l.dropWhile p).head?, p c = false := by
  induction l with
  | nil => simp
  | cons a l ih =>
    by_cases h : p a = true
    · simpa [List.dropWhile_cons, h] using ih
    · simp [List.dropWhile_cons, h, Bool.eq_false_iff.mpr h]

theorem getLast_dropWhile (p : Char → Bool) (l : List Char) :
    ∀ c ∈ (l.dropWhile p).getLast?, p c = false ∨ l.getLast? = some c := by
  induction l with
  | nil => simp
  | cons a l ih =>
    intro c hc
    by_cases h : p a = true
    · rw [List.dropWhile_cons, if_pos h] at hc
      rcases ih c hc with h1 | h2
      · exact Or.inl h1
      · cases l with
        | nil => simp at hc
        | cons b l => exact Or.inr (by simpa using h2)
    · rw [List.dropWhile_cons, if_neg h] at hc
      exact Or.inr hc

theorem dropWhile_eq_self (p : Char → Bool) (l : List Char)
    (h : ∀ c ∈ l.head?, p c = false) : l.dropWhile p = l := by
  cases l with
  | nil => simp
  | cons a l =>
    have ha : p a = false := h a (by simp)
    simp [List.dropWhile_cons, ha]

theorem pyStrip_length_le (s : List Char) : (pyStrip s).length ≤ s.length := by
  unfold pyStrip
  calc ((s.dropWhile pyIsSpace).reverse.dropWhile pyIsSpace).reverse.length
      = ((s.dropWhile pyIsSpace).reverse.dropWhile pyIsSpace).length :=
        List.length_reverse _
    _ ≤ (s.dropWhile pyIsSpace).reverse.length := length_dropWhile_le _ _
    _ = (s.dropWhile pyIsSpace).length := List.length_reverse _
    _ ≤ s.length := length_dropWhile_le _ _

theorem head_pyStrip_false (s : List Char) :
    ∀ c ∈ (pyStrip s).head?, pyIsSpace c = false := by
  intro c hc
  unfold pyStrip at hc
  rw [List.head?_reverse] at hc
  rcases getLast_dropWhile pyIsSpace (s.dropWhile pyIsSpace).reverse c hc with h1 | h2
  · exact h1
  · rw [List.getLast?_reverse] at h2
    exact head_dropWhile_false pyIsSpace s c h2

theorem getLast_pyStrip_false (s : List Char) :
    ∀ c ∈ (pyStrip s).getLast?, pyIsSpace c = false := by
  intro c hc
  unfold pyStrip at hc
  rw [List.getLast?_reverse] at hc
  exact head_dropWhile_false pyIsSpace _ c hc

theorem pyStrip_eq_self (s : List Char)
    (h1 : ∀ c ∈ s.head?, pyIsSpace c = false)
    (h2 : ∀ c ∈ s.getLast?, pyIsSpace c = false) : pyStrip s = s := by
  unfold pyStrip
  rw [dropWhile_eq_self pyIsSpace s h1,
      dropWhile_eq_self pyIsSpace s.reverse (by rw [List.head?_reverse]; exact h2),
      List.reverse_reverse]

theorem pyStrip_idem (s : List Char) : pyStrip (pyStrip s) = pyStrip s :=
  pyStrip_eq_self (pyStrip s) (head_pyStrip_false s) (getLast_pyStrip_false s)

theorem pyStrip_decomp (s : List Char) :
    ∃ pre suf, s = pre ++ pyStrip s ++ suf ∧
      pre.all pyIsSpace = true ∧ suf.all pyIsSpace = true := by
  refine ⟨s.takeWhile pyIsSpace,
    ((s.dropWhile pyIsSpace).reverse.takeWhile pyIsSpace).reverse, ?_, ?_, ?_⟩
  · conv_lhs => rw [← List.takeWhile_append_dropWhile pyIsSpace s]
    rw [List.append_assoc]
    congr 1
    conv_lhs =>
      rw [← List.reverse_reverse (s.dropWhile pyIsSpace),
        ← List.takeWhile_append_dropWhile pyIsSpace (s.dropWhile pyIsSpace).reverse]
    rw [List.reverse_append]
    rfl
  · exact List.all_eq_true.mpr fun c hc => List.mem_takeWhile_imp hc
  · exact List.all_eq_true.mpr fun c hc =>
      List.mem_takeWhile_imp (List.mem_reverse.mp hc)

/-- Closed-form evaluation of the pipeline before the exception handler. -/
theorem process_requestE_eq (s : List Char) :
    process_requestE s =
      if s.length > MAX_INPUT_LENGTH then
        Except.error (.lengthExceeded MAX_INPUT_LENGTH)
      else if !fullmatchValid (pyStrip s) then
        Except.error .invalidCharacters
      else
        Except.ok (pyStrip s) := by
  unfold process_requestE filter_input validate_input
  by_cases h : s.length > MAX_INPUT_LENGTH
  · simp [h, Bind.bind, Except.bind]
  · by_cases h2 : fullmatchValid (pyStrip s) <;>
      simp [h, h2, Bind.bind, Except.bind, Pure.pure, Except.pure]

/-! ### Claims -/

/-- Input exhibiting the gap between pre-trim and post-trim length checks:
26 characters long, but only one character after trimming. -/
def c1Bad : List Char := 'a' :: List.replicate 25 ' '

/-- C1 (counterexample): the claim quantifies over the post-trim length, but
`filter_input` checks the pre-trim length.  For `c1Bad` (the character `a`
followed by 25 spaces) the trimmed string is `"a"`, of length 1 ≤ 25 and
fully matching the pattern, yet `process_request` returns `""`, not `"a"`. -/
theorem c1_counterexample :
    (pyStrip c1Bad).length ≤ MAX_INPUT_LENGTH ∧
    fullmatchValid (pyStrip c1Bad) = true ∧
    process_request c1Bad ≠ pyStrip c1Bad :=
  ⟨by decide, by decide, by decide⟩

/-- C1 (amended): for every string `s` whose pre-trim length is at most
`MAX_INPUT_LENGTH` and whose trimmed form fully matches the allow-list
pattern, `process_request s` returns the trimmed form of `s`. -/
theorem c1_accepted_returns_trim (s : List Char)
    (hlen : s.length ≤ MAX_INPUT_LENGTH)
    (hmatch : fullmatchValid (pyStrip s) = true) :
    process_request s = pyStrip s := by
  unfold process_request
  rw [process_requestE_eq]
  simp [Nat.not_lt.mpr hlen, hmatch]

/-- Witness for C1 (amended) on the spec scenario `"   Hello World   "`. -/
theorem c1_accepted_returns_trim_witness :
    "   Hello World   ".data.length ≤ MAX_INPUT_LENGTH ∧
    fullmatchValid (pyStrip "   Hello World   ".data) = true ∧
    process_request "   Hello World   ".data = pyStrip "   Hello World   ".data :=
  ⟨by decide, by decide, c1_accepted_returns_trim _ (by decide) (by decide)⟩

/-- C2: every string longer than `MAX_INPUT_LENGTH` is rejected:
`process_request` returns the empty string. -/
theorem c2_overlong_rejected (s : List Char)
    (h : s.length > MAX_INPUT_LENGTH) :
    process_request s = [] := by
  unfold process_request
  rw [process_requestE_eq]
  simp [h]

/-- Witness for C2 on the spec scenario of 26 copies of `A`. -/
theorem c2_overlong_rejected_witness :
    (List.replicate 26 'A').length > MAX_INPUT_LENGTH ∧
    process_request (List.replicate 26 'A') = [] :=
  ⟨by decide, c2_overlong_rejected _ (by decide)⟩

/-- C3: `validate_input s` raises exactly when the anchored full-match of the
allow-list pattern fails, and on success returns `s` itself unchanged. -/
theorem c3_validate_iff (s : List Char) :
    ((∃ e, validate_input s = .error e) ↔ fullmatchValid s = false) ∧
    (fullmatchValid s = true → validate_input s = .ok s) := by
  unfold validate_input
  by_cases h : fullmatchValid s = true <;> simp [h]

/-- C4: `filter_input s` raises the length error exactly when the pre-trim
length of `s` exceeds `MAX_INPUT_LENGTH`; a string of length exactly 25 is
not rejected. -/
theorem c4_filter_iff (s : List Char) :
    ((∃ e, filter_input s = .error e) ↔ s.length > MAX_INPUT_LENGTH) ∧
    (s.length = MAX_INPUT_LENGTH → filter_input s = .ok (pyStrip s)) := by
  unfold filter_input
  by_cases h : s.length > MAX_INPUT_LENGTH <;> simp [h]
  intro heq
  rw [heq] at h
  exact absurd rfl (Nat.ne_of_lt h)

/-- C5: if the trimmed input contains any character outside the allow-list
class, `process_request` returns the empty string. -/
theorem c5_bad_char_rejected (s : List Char) (c : Char)
    (hc : c ∈ pyStrip s) (hbad : validChar c = false) :
    process_request s = [] := by
  unfold process_request
  rw [process_requestE_eq]
  by_cases h : s.length > MAX_INPUT_LENGTH
  · simp [h]
  · have hall : (pyStrip s).all validChar = false := by
      rw [Bool.eq_false_iff]
      intro hallT
      have hT := List.all_eq_true.mp hallT c hc
      rw [hbad] at hT
      exact Bool.false_ne_true hT
    have hfm : fullmatchValid (pyStrip s) = false := by
      unfold fullmatchValid
      simp [hall]
    simp [h, hfm]

/-- Witness for C5 on the spec scenario `"Invalid@Input#!"` with the
disallowed character `@`. -/
theorem c5_bad_char_rejected_witness :
    '@' ∈ pyStrip "Invalid@Input#!".data ∧ validChar '@' = false ∧
    process_request "Invalid@Input#!".data = [] :=
  ⟨by decide, by decide, c5_bad_char_rejected _ '@' (by decide) (by decide)⟩

/-- C6: `process_request` is idempotent on accepted inputs: if the pipeline
accepts `s` (no stage raised), then processing the output again returns the
same output. -/
theorem c6_idempotent (s : List Char)
    (h : (process_requestE s).isOk = true) :
    process_request (process_request s) = process_request s := by
  rw [process_requestE_eq] at h
  by_cases h1 : s.length > MAX_INPUT_LENGTH
  · simp [h1, Except.isOk, Except.toBool] at h
  · by_cases h2 : fullmatchValid (pyStrip s) = true
    · have hps : process_request s = pyStrip s := by
        unfold process_request
        rw [process_requestE_eq]
        simp [h1, h2]
      have hlen : (pyStrip s).length ≤ MAX_INPUT_LENGTH :=
        le_trans (pyStrip_length_le s) (Nat.not_lt.mp h1)
      rw [hps]
      unfold process_request
      rw [process_requestE_eq]
      simp [Nat.not_lt.mpr hlen, pyStrip_idem, h2]
    · simp [h1, h2, Except.isOk, Except.toBool] at h

/-- Witness for C6 on the spec scenario `"Valid_Input 123"`. -/
theorem c6_idempotent_witness :
    (process_requestE "Valid_Input 123".data).isOk = true ∧
    process_request (process_request "Valid_Input 123".data) =
      process_request "Valid_Input 123".data :=
  ⟨by decide, c6_idempotent _ (by decide)⟩

/-- C7: every accepted output satisfies both data-model invariants: its
length after trimming is at most `MAX_INPUT_LENGTH`, and it fully matches
the allow-list pattern. -/
theorem c7_invariants (s t : List Char)
    (h : process_requestE s = .ok t) :
    (pyStrip t).length ≤ MAX_INPUT_LENGTH ∧ fullmatchValid t = true := by
  rw [process_requestE_eq] at h
  by_cases h1 : s.length > MAX_INPUT_LENGTH
  · simp [h1] at h
  · by_cases h2 : fullmatchValid (pyStrip s) = true
    · simp [h1, h2] at h
      subst h
      refine ⟨?_, h2⟩
      rw [pyStrip_idem]
      exact le_trans (pyStrip_length_le s) (Nat.not_lt.mp h1)
    · simp [h1, h2] at h

/-- Witness for C7 at the accepted input `"Valid_Input 123"`. -/
theorem c7_invariants_witness :
    process_requestE "Valid_Input 123".data = .ok "Valid_Input 123".data ∧
    (pyStrip "Valid_Input 123".data).length ≤ MAX_INPUT_LENGTH ∧
    fullmatchValid "Valid_Input 123".data = true :=
  ⟨rfl, c7_invariants "Valid_Input 123".data "Valid_Input 123".data rfl⟩

/-- C8: on success `filter_input` only trims: it returns `strip(s)`, which is
`s` minus an all-whitespace head and an all-whitespace tail, internal
characters untouched; in particular `filter_input "a  b"` keeps the internal
double space. -/
theorem c8_trim_only (s : List Char) (h : s.length ≤ MAX_INPUT_LENGTH) :
    (∃ pre suf, filter_input s = .ok (pyStrip s) ∧
      s = pre ++ pyStrip s ++ suf ∧
      pre.all pyIsSpace = true ∧ suf.all pyIsSpace = true) ∧
    filter_input "a  b".data = .ok "a  b".data := by
  constructor
  · obtain ⟨pre, suf, hdec, hpre, hsuf⟩ := pyStrip_decomp s
    refine ⟨pre, suf, ?_, hdec, hpre, hsuf⟩
    unfold filter_input
    simp [Nat.not_lt.mpr h]
  · rfl

/-- Witness for C8 at `"  a  b  "`. -/
theorem c8_trim_only_witness :
    "  a  b  ".data.length ≤ MAX_INPUT_LENGTH ∧
    ((∃ pre suf, filter_input "  a  b  ".data = .ok (pyStrip "  a  b  ".data) ∧
      "  a  b  ".data = pre ++ pyStrip "  a  b  ".data ++ suf ∧
      pre.all pyIsSpace = true ∧ suf.all pyIsSpace = true) ∧
    filter_input "a  b".data = .ok "a  b".data) :=
  ⟨by decide, c8_trim_only _ (by decide)⟩

/-- C9 (counterexample): the empty string is not accepted by the pipeline:
`validate_input` raises on `""` (the pattern requires at least one
character), so the claim "the empty-string input is accepted and
`process_request` returns `\x22\x22`" fails on its first conjunct. -/
theorem c9_counterexample :
    ¬ ((process_requestE []).isOk = true ∧ process_request [] = []) := by
  decide

/-- C9 (amended): `process_request ""` does return `""`, but through the
rejection path — the validator rejects the empty string — so the output
coincides with the rejection sentinel without the input being accepted. -/
theorem c9_empty_returns_sentinel :
    process_request [] = [] ∧ (process_requestE []).isOk = false ∧
    validate_input [] = .error .invalidCharacters :=
  ⟨rfl, rfl, rfl⟩

/-- C10: `validate_input` raises on the empty string, so every input whose
trimmed form is empty — including all-whitespace inputs of length ≤ 25 —
takes the rejection path of `process_request`. -/
theorem c10_empty_trim_rejected (s : List Char) (h : pyStrip s = []) :
    validate_input [] = .error .invalidCharacters ∧
    (process_requestE s).isOk = false := by
  refine ⟨rfl, ?_⟩
  rw [process_requestE_eq]
  by_cases h1 : s.length > MAX_INPUT_LENGTH
  · simp [h1, Except.isOk, Except.toBool]
  · simp [h1, h, fullmatchValid, Except.isOk, Except.toBool]

/-- Witness for C10 at the all-whitespace input `"   "`. -/
theorem c10_empty_trim_rejected_witness :
    pyStrip "   ".data = [] ∧
    (validate_input [] = .error .invalidCharacters ∧
      (process_requestE "   ".data).isOk = false) :=
  ⟨by decide, c10_empty_trim_rejected _ (by decide)⟩

end BufferOverflow
